import Mathlib

/-!
# Azure Event Hub notifier: construction and Post

A shallow embedding of `internal/notifier/azure_eventhub.go`.

* Go's `error` interface is `Option GoError`; `none` is the nil error.
* A pair `(value, error)` returned by a dependency is an `Except String α`:
  the string is what the dependency's error prints with `Error()`.
* The Azure SDK, `encoding/json` and the ambient identity chain are parameters
  (`Deps`); each of their operations reads and updates an arbitrary state `σ`,
  so that the outcome of an operation may depend on everything that happened
  before it.
* Every call made on a dependency is appended to a call log together with its
  outcome; the theorems about ordering and teardown are statements about
  this log.
* Strings are sequences of characters; for valid UTF-8 text this agrees with
  the byte-level substring test of `strings.Contains`.
* `fmt`, `errors` and `k8s.io/apimachinery/pkg/util/errors` are embedded as far
  as this file calls them (`Errorf`, `NewAggregate`, `aggregate.Error`).
-/

namespace Notifier

/-! ## Go errors -/

/-- The dynamic types an `error` value can have in this package.
`foreign` is an error value produced inside a dependency (Azure SDK,
`encoding/json`, `azidentity`); all that is observed of it is its message.
`errorString` is what `errors.New` and `fmt.Errorf` without `%w` build,
`wrapError` what `fmt.Errorf` with one `%w` builds, and `aggregate` is the
unexported slice type of `k8s.io/apimachinery/pkg/util/errors`, which only
`NewAggregate` builds: an error handed back by a dependency is never an
`aggregate`, and `aggregate.visit` passes it to its callback as one error. -/
inductive GoError where
  | foreign (msg : String)
  | errorString (s : String)
  | wrapError (msg : String) (err : GoError)
  | aggregate (errs : List GoError)

/-- One invocation of the closure that `aggregate.Error` passes to `visit`:
`acc.1` is the set `seenerrs` (in insertion order), `acc.2` is `result`. -/
def aggregateStep (acc : List String × String) (msg : String) : List String × String :=
  if acc.1.contains msg then acc
  else
    let seen := acc.1 ++ [msg]
    (seen, if seen.length > 1 then (acc.2 ++ ", ") ++ msg else acc.2 ++ msg)

mutual
/-- The method `Error()` of each error type. For `aggregate` this is
`kerrors.aggregate.Error`: empty string for no errors, the single error's
message for one, otherwise the distinct messages of the visited errors joined
with a comma and bracketed unless only one distinct message was seen. -/
def GoError.Error : GoError → String
  | .foreign msg => msg
  | .errorString s => s
  | .wrapError msg _ => msg
  | .aggregate [] => ""
  | .aggregate [e] => e.Error
  | .aggregate (e1 :: e2 :: es) =>
      let r := (visitMsgs (e1 :: e2 :: es)).foldl aggregateStep ([], "")
      if r.1.length = 1 then r.2 else ("[" ++ r.2) ++ "]"
/-- The messages `aggregate.visit` hands to its callback, in order: a nested
`aggregate` is visited recursively, any other error is passed as it is. -/
def visitMsgs : List GoError → List String
  | [] => []
  | .aggregate inner :: es => visitMsgs inner ++ visitMsgs es
  | .foreign msg :: es => (GoError.foreign msg).Error :: visitMsgs es
  | .errorString s :: es => (GoError.errorString s).Error :: visitMsgs es
  | .wrapError msg err :: es => (GoError.wrapError msg err).Error :: visitMsgs es
end

/-- The call `fmt.Errorf(format + "%v", err)`: no `%w`, so the result is
`errors.New` of the formatted text. -/
def Errorf_v (format : String) (err : GoError) : GoError :=
  .errorString (format ++ err.Error)

/-- The call `fmt.Errorf(format + "%w", err)`: a `wrapError` holding the
formatted text and the wrapped error. -/
def Errorf_w (format : String) (err : GoError) : GoError :=
  .wrapError (format ++ err.Error) err

/-- The function `kerrors.NewAggregate`: nil for an empty list, nil entries are
dropped, nil again if nothing is left, otherwise the `aggregate` of the rest. -/
def NewAggregate (errlist : List (Option GoError)) : Option GoError :=
  if errlist.length = 0 then none
  else
    let errs := errlist.filterMap id
    if errs.length = 0 then none else some (.aggregate errs)

/-- The function `strings.Contains`. -/
def strings.Contains (s substr : String) : Bool :=
  decide (substr.data <:+: s.data)

/-! ## Events -/

/-- The type `eventv1.Event` of `github.com/fluxcd/pkg/apis/event/v1beta1`. The
map `Metadata` is a lookup function (`none` for an absent key); the object
reference and the timestamp are kept uninterpreted. -/
structure Event where
  InvolvedObject : String
  Severity : String
  Timestamp : Int
  Message : String
  Reason : String
  Metadata : String → Option String
  ReportingController : String
  ReportingInstance : String

/-- The constant `eventv1.MetaCommitStatusKey`. -/
def MetaCommitStatusKey : String := "commit_status"

/-- The constant `eventv1.MetaCommitStatusUpdateValue`. -/
def MetaCommitStatusUpdateValue : String := "update"

/-- The method `Event.HasMetadata`: the key is present and maps to `val`. -/
def Event.HasMetadata (ev : Event) (key val : String) : Bool :=
  match ev.Metadata key with
  | some v => v == val
  | none => false

/-! ## The JWT token provider -/

/-- The zero value of `time.Time` has all three fields zero (`loc` is a nil
pointer). -/
structure Time where
  wall : Nat
  ext : Int
  loc : Option String
  deriving DecidableEq, Repr

/-- The zero value of `time.Time`, as declared by `var expiryTime time.Time`. -/
def Time.zeroValue : Time := ⟨0, 0, none⟩

/-- The type `azcore.AccessToken`. -/
structure AccessToken where
  Token : String
  ExpiresOn : Time
  deriving DecidableEq, Repr

/-- The type `policy.TokenRequestOptions`. -/
structure TokenRequestOptions where
  Claims : String
  EnableCAE : Bool
  Scopes : List String
  TenantID : String
  deriving DecidableEq, Repr

/-- PureJWT just contains the jwt. -/
structure PureJWT where
  jwt : String
  deriving DecidableEq, Repr

/-- The function `NewJWTProvider`. -/
def NewJWTProvider (jwt : String) : PureJWT :=
  { jwt := jwt }

/-- The method `PureJWT.GetToken`: the stored jwt, with no expiry defined. -/
def PureJWT.GetToken {κ : Type} (j : PureJWT) (_ctx : κ) (_options : TokenRequestOptions) :
    AccessToken × Option GoError :=
  let expiryTime : Time := Time.zeroValue
  ({ Token := j.jwt, ExpiresOn := expiryTime }, none)

/-! ## Dependencies and the call log -/

/-- The two implementations of `azcore.TokenCredential` that
`NewAzureEventHub` hands to `NewProducerClient`. -/
inductive TokenCredential (χ : Type) where
  | pureJWT (p : PureJWT)
  | defaultAzure (c : χ)
  deriving DecidableEq

/-- A call on a dependency, with the arguments the notifier chose. -/
inductive Call (χ : Type) where
  | NewProducerClient (eventHubNamespace endpointURL : String) (cred : TokenCredential χ)
  | NewProducerClientFromConnectionString (connectionString eventHub : String)
  | NewDefaultAzureCredential
  | Marshal
  | NewEventDataBatch
  | AddEventData (body : List UInt8)
  | SendEventDataBatch
  | Close
  deriving DecidableEq

/-- The operation a call belongs to, without its arguments. -/
inductive Op where
  | NewProducerClient
  | NewProducerClientFromConnectionString
  | NewDefaultAzureCredential
  | Marshal
  | NewEventDataBatch
  | AddEventData
  | SendEventDataBatch
  | Close
  deriving DecidableEq, Repr

/-- The operation of a call. -/
def Call.op {χ : Type} : Call χ → Op
  | .NewProducerClient _ _ _ => .NewProducerClient
  | .NewProducerClientFromConnectionString _ _ => .NewProducerClientFromConnectionString
  | .NewDefaultAzureCredential => .NewDefaultAzureCredential
  | .Marshal => .Marshal
  | .NewEventDataBatch => .NewEventDataBatch
  | .AddEventData _ => .AddEventData
  | .SendEventDataBatch => .SendEventDataBatch
  | .Close => .Close

/-- One entry of the call log: the call and, if it failed, the message of the
error it returned. -/
structure Record (χ : Type) where
  call : Call χ
  failed : Option String
  deriving DecidableEq

/-- The operation of a log entry. -/
def Record.op {χ : Type} (r : Record χ) : Op := r.call.op

/-- The state of everything outside the notifier, and the log of the calls
made so far. -/
structure World (σ χ : Type) where
  st : σ
  log : List (Record χ)

/-- The dependencies: `σ` is their state, `κ` the type of contexts, `π` of
producer clients, `β` of event data batches and `χ` of ambient credentials.
An operation returns its result and the state it leaves. -/
structure Deps (σ κ π β χ : Type) where
  NewProducerClient : String → String → TokenCredential χ → σ → Except String π × σ
  NewProducerClientFromConnectionString : String → String → σ → Except String π × σ
  NewDefaultAzureCredential : σ → Except String χ × σ
  Marshal : Event → σ → Except String (List UInt8) × σ
  NewEventDataBatch : π → κ → σ → Except String β × σ
  AddEventData : β → List UInt8 → σ → Option String × σ
  SendEventDataBatch : π → κ → β → σ → Option String × σ
  Close : π → κ → σ → Option String × σ

/-- The error message of a failed result, `none` for a success. -/
def failureOf {α : Type} : Except String α → Option String
  | .error msg => some msg
  | .ok _ => none

section Calls
variable {σ κ π β χ : Type}

/-- Perform a value-returning call and log it. -/
def World.call {α : Type} (w : World σ χ) (c : Call χ) (f : σ → Except String α × σ) :
    Except String α × World σ χ :=
  let r := f w.st
  (r.1, { st := r.2, log := w.log ++ [{ call := c, failed := failureOf r.1 }] })

/-- Perform an error-only call and log it. -/
def World.callErr (w : World σ χ) (c : Call χ) (f : σ → Option String × σ) :
    Option String × World σ χ :=
  let r := f w.st
  (r.1, { st := r.2, log := w.log ++ [{ call := c, failed := r.1 }] })

/-- The log entries added between the world `w` and the later world `w2`. -/
def newCalls (w w2 : World σ χ) : List (Record χ) :=
  w2.log.drop w.log.length

/-! ## The notifier -/

/-- AzureEventHub holds the eventhub client. -/
structure AzureEventHub (π : Type) where
  ProducerClient : π

/-- The function `NewAzureEventHub`: creates a eventhub client. The result is
the Go pair (client, error). -/
def NewAzureEventHub (d : Deps σ κ π β χ) (endpointURL token eventHubNamespace : String)
    (w : World σ χ) : (Option (AzureEventHub π) × Option GoError) × World σ χ :=
  -- token should only be defined if JWT is used
  if token ≠ "" then
    let tokenProvider := NewJWTProvider token
    match w.call (.NewProducerClient eventHubNamespace endpointURL (.pureJWT tokenProvider))
        (d.NewProducerClient eventHubNamespace endpointURL (.pureJWT tokenProvider)) with
    | (.error msg, w1) =>
        ((none, some (Errorf_v "failed to create a eventhub using JWT " (.foreign msg))), w1)
    | (.ok producer, w1) => ((some { ProducerClient := producer }, none), w1)
  else
    -- if SharedAccessKey string is present in the endpoint URL use SAS string
    if strings.Contains endpointURL "SharedAccessKey" then
      match w.call (.NewProducerClientFromConnectionString endpointURL "")
          (d.NewProducerClientFromConnectionString endpointURL "") with
      | (.error msg, w1) =>
          ((none, some (Errorf_v "failed to create a eventhub using SAS " (.foreign msg))), w1)
      | (.ok producer, w1) => ((some { ProducerClient := producer }, none), w1)
    else
      match w.call .NewDefaultAzureCredential d.NewDefaultAzureCredential with
      | (.error msg, w1) => ((none, some (.foreign msg)), w1)
      | (.ok defaultAzureCred, w1) =>
        match w1.call (.NewProducerClient eventHubNamespace endpointURL (.defaultAzure defaultAzureCred))
            (d.NewProducerClient eventHubNamespace endpointURL (.defaultAzure defaultAzureCred)) with
        | (.error msg, w2) =>
            ((none, some (Errorf_v "failed to create a eventhub using SAS " (.foreign msg))), w2)
        | (.ok producer, w2) => ((some { ProducerClient := producer }, none), w2)

/-- The body of `Post` up to its `return` statements: the value of the named
result `err` when the function returns, before the deferred function runs. -/
def postSteps (d : Deps σ κ π β χ) (e : AzureEventHub π) (ctx : κ) (event : Event)
    (w : World σ χ) : Option GoError × World σ χ :=
  -- Skip Git commit status update event.
  if event.HasMetadata MetaCommitStatusKey MetaCommitStatusUpdateValue then (none, w)
  else
    match w.call .Marshal (d.Marshal event) with
    | (.error msg, w1) => (some (Errorf_w "unable to marshall event: " (.foreign msg)), w1)
    | (.ok eventBytes, w1) =>
      match w1.call .NewEventDataBatch (d.NewEventDataBatch e.ProducerClient ctx) with
      | (.error msg, w2) =>
          (some (Errorf_w "failed to create new event data batch: " (.foreign msg)), w2)
      | (.ok batch, w2) =>
        match w2.callErr (.AddEventData eventBytes) (d.AddEventData batch eventBytes) with
        | (some msg, w3) => (some (Errorf_w "failed to add event data: " (.foreign msg)), w3)
        | (none, w3) =>
          match w3.callErr .SendEventDataBatch (d.SendEventDataBatch e.ProducerClient ctx batch) with
          | (some msg, w4) => (some (Errorf_w "failed to send msg: " (.foreign msg)), w4)
          | (none, w4) => (none, w4)

/-- The deferred function of `Post`: close the producer client and merge the
close error into the named result `err`. -/
def postDeferred (d : Deps σ κ π β χ) (e : AzureEventHub π) (ctx : κ)
    (r : Option GoError × World σ χ) : Option GoError × World σ χ :=
  let c := r.2.callErr .Close (d.Close e.ProducerClient ctx)
  let closeErr : Option GoError := c.1.map GoError.foreign
  if r.1.isSome then (NewAggregate [r.1, closeErr], c.2)
  else (closeErr, c.2)

/-- The method `AzureEventHub.Post`: post a notification-controller message to
EventHub. The deferred function runs after the body has set `err`. -/
def AzureEventHub.Post (d : Deps σ κ π β χ) (e : AzureEventHub π) (ctx : κ) (event : Event)
    (w : World σ χ) : Option GoError × World σ χ :=
  postDeferred d e ctx (postSteps d e ctx event w)

/-! ## Outcomes of one run -/

/-- The five ways the body of `Post` can run on an event that is not
suppressed: the calls it logs and the value it leaves in `err`. -/
inductive StepsOutcome : List (Record χ) → Option GoError → Prop where
  | marshalFailed (msg : String) :
      StepsOutcome [⟨.Marshal, some msg⟩]
        (some (Errorf_w "unable to marshall event: " (.foreign msg)))
  | batchFailed (msg : String) :
      StepsOutcome [⟨.Marshal, none⟩, ⟨.NewEventDataBatch, some msg⟩]
        (some (Errorf_w "failed to create new event data batch: " (.foreign msg)))
  | addFailed (body : List UInt8) (msg : String) :
      StepsOutcome [⟨.Marshal, none⟩, ⟨.NewEventDataBatch, none⟩, ⟨.AddEventData body, some msg⟩]
        (some (Errorf_w "failed to add event data: " (.foreign msg)))
  | sendFailed (body : List UInt8) (msg : String) :
      StepsOutcome
        [⟨.Marshal, none⟩, ⟨.NewEventDataBatch, none⟩, ⟨.AddEventData body, none⟩,
          ⟨.SendEventDataBatch, some msg⟩]
        (some (Errorf_w "failed to send msg: " (.foreign msg)))
  | sent (body : List UInt8) :
      StepsOutcome
        [⟨.Marshal, none⟩, ⟨.NewEventDataBatch, none⟩, ⟨.AddEventData body, none⟩,
          ⟨.SendEventDataBatch, none⟩]
        none

/-- The merge performed by the deferred function of `Post`. -/
def mergeClose (err : Option GoError) (closeMsg : Option String) : Option GoError :=
  if err.isSome then NewAggregate [err, closeMsg.map GoError.foreign]
  else closeMsg.map GoError.foreign

end Calls

/-- The text `Post` puts in front of the error of each of its steps (the
format strings of its four `fmt.Errorf` calls, up to the verb). -/
def stageFormat : Op → String
  | .Marshal => "unable to marshall event: "
  | .NewEventDataBatch => "failed to create new event data batch: "
  | .AddEventData => "failed to add event data: "
  | .SendEventDataBatch => "failed to send msg: "
  | _ => ""

/-- The seven ways `NewAzureEventHub` can run: the calls it logs and the pair
(client, error) it returns. -/
inductive NewOutcome {π χ : Type} (endpointURL token eventHubNamespace : String) :
    List (Record χ) → Option (AzureEventHub π) × Option GoError → Prop where
  | jwtFailed (ht : token ≠ "") (msg : String) :
      NewOutcome endpointURL token eventHubNamespace
        [⟨.NewProducerClient eventHubNamespace endpointURL (.pureJWT (NewJWTProvider token)),
          some msg⟩]
        (none, some (Errorf_v "failed to create a eventhub using JWT " (.foreign msg)))
  | jwtCreated (ht : token ≠ "") (producer : π) :
      NewOutcome endpointURL token eventHubNamespace
        [⟨.NewProducerClient eventHubNamespace endpointURL (.pureJWT (NewJWTProvider token)),
          none⟩]
        (some { ProducerClient := producer }, none)
  | sasFailed (ht : token = "") (hs : strings.Contains endpointURL "SharedAccessKey" = true)
      (msg : String) :
      NewOutcome endpointURL token eventHubNamespace
        [⟨.NewProducerClientFromConnectionString endpointURL "", some msg⟩]
        (none, some (Errorf_v "failed to create a eventhub using SAS " (.foreign msg)))
  | sasCreated (ht : token = "") (hs : strings.Contains endpointURL "SharedAccessKey" = true)
      (producer : π) :
      NewOutcome endpointURL token eventHubNamespace
        [⟨.NewProducerClientFromConnectionString endpointURL "", none⟩]
        (some { ProducerClient := producer }, none)
  | credentialFailed (ht : token = "")
      (hs : strings.Contains endpointURL "SharedAccessKey" = false) (msg : String) :
      NewOutcome endpointURL token eventHubNamespace
        [⟨.NewDefaultAzureCredential, some msg⟩]
        (none, some (.foreign msg))
  | defaultFailed (ht : token = "")
      (hs : strings.Contains endpointURL "SharedAccessKey" = false) (cred : χ) (msg : String) :
      NewOutcome endpointURL token eventHubNamespace
        [⟨.NewDefaultAzureCredential, none⟩,
          ⟨.NewProducerClient eventHubNamespace endpointURL (.defaultAzure cred), some msg⟩]
        (none, some (Errorf_v "failed to create a eventhub using SAS " (.foreign msg)))
  | defaultCreated (ht : token = "")
      (hs : strings.Contains endpointURL "SharedAccessKey" = false) (cred : χ) (producer : π) :
      NewOutcome endpointURL token eventHubNamespace
        [⟨.NewDefaultAzureCredential, none⟩,
          ⟨.NewProducerClient eventHubNamespace endpointURL (.defaultAzure cred), none⟩]
        (some { ProducerClient := producer }, none)

/-! ## Test doubles -/

/-- A scripted stand-in for the dependencies, with no state: each operation
fails with the scripted message, or succeeds when the script says `none`.
`NewProducerClientFromConnectionString` behaves as the test file expects of
the SDK: without an `EntityPath` in the connection string and with an empty
`eventHub` it fails with the SDK's message. -/
def stubDeps (cred client marshal batch add send close : Option String) :
    Deps Unit Unit Unit Unit Unit :=
  { NewProducerClient := fun _ _ _ s =>
      (match client with
        | some msg => .error msg
        | none => .ok (), s)
    NewProducerClientFromConnectionString := fun connectionString eventHub s =>
      (if strings.Contains connectionString "EntityPath" || eventHub != "" then .ok ()
        else .error
          "connection string does not contain an EntityPath. eventHub cannot be an empty string",
        s)
    NewDefaultAzureCredential := fun s =>
      (match cred with
        | some msg => .error msg
        | none => .ok (), s)
    Marshal := fun _ s =>
      (match marshal with
        | some msg => .error msg
        | none => .ok [0x7b, 0x7d], s)
    NewEventDataBatch := fun _ _ s =>
      (match batch with
        | some msg => .error msg
        | none => .ok (), s)
    AddEventData := fun _ _ s => (add, s)
    SendEventDataBatch := fun _ _ _ s => (send, s)
    Close := fun _ _ s => (close, s) }

/-- An event without metadata. -/
def plainEvent : Event :=
  { InvolvedObject := "GitRepository/flux-system", Severity := "info", Timestamp := 0,
    Message := "reconciled", Reason := "ReconciliationSucceeded",
    Metadata := fun _ => none,
    ReportingController := "source-controller", ReportingInstance := "" }

/-- An event marked as a commit-status update. -/
def commitStatusEvent : Event :=
  { plainEvent with
    Metadata := fun key => if key = MetaCommitStatusKey then some MetaCommitStatusUpdateValue
      else none }

/-- The world before any call. -/
def emptyWorld : World Unit Unit := { st := (), log := [] }

/-- The client the test doubles hand out. -/
def stubHub : AzureEventHub Unit := { ProducerClient := () }

/-- The endpoint of the test case "SAS Authentication" that has no EntityPath. -/
def sasEndpointWithoutEntityPath : String :=
  "Endpoint=sb://example.com/;SharedAccessKeyName=keyName;SharedAccessKey=key"

/-- The endpoint of the test case "SAS Authentication" that has an EntityPath. -/
def sasEndpoint : String :=
  "Endpoint=sb://example.com/;SharedAccessKeyName=keyName;SharedAccessKey=key;EntityPath=eventhub"

/-! ## Lemmas and theorems -/

section RunLemmas
variable {σ κ π β χ : Type}

/-- The entries added to a log are the ones appended to it. -/
theorem newCalls_append (w : World σ χ) (st : σ) (l : List (Record χ)) :
    newCalls w { st := st, log := w.log ++ l } = l := by
  simp [newCalls]

/-- The body of `Post` on a suppressed event: nothing is called. -/
theorem postSteps_suppressed (d : Deps σ κ π β χ) (e : AzureEventHub π) (ctx : κ) (event : Event)
    (w : World σ χ)
    (h : event.HasMetadata MetaCommitStatusKey MetaCommitStatusUpdateValue = true) :
    postSteps d e ctx event w = (none, w) := by
  simp [postSteps, h]

/-- The body of `Post` on an event that is not suppressed runs in one of the
five ways of `StepsOutcome`. -/
theorem postSteps_outcome (d : Deps σ κ π β χ) (e : AzureEventHub π) (ctx : κ) (event : Event)
    (w : World σ χ)
    (h : event.HasMetadata MetaCommitStatusKey MetaCommitStatusUpdateValue = false) :
    ∃ st l err, postSteps d e ctx event w = (err, { st := st, log := w.log ++ l }) ∧
      StepsOutcome l err := by
  rcases h1 : d.Marshal event w.st with ⟨r1, s1⟩
  cases r1 with
  | error m =>
    exact ⟨s1, _, _, by simp [postSteps, h, World.call, h1, failureOf], .marshalFailed m⟩
  | ok body =>
    rcases h2 : d.NewEventDataBatch e.ProducerClient ctx s1 with ⟨r2, s2⟩
    cases r2 with
    | error m =>
      exact ⟨s2, _, _, by simp [postSteps, h, World.call, h1, h2, failureOf], .batchFailed m⟩
    | ok batch =>
      rcases h3 : d.AddEventData batch body s2 with ⟨r3, s3⟩
      cases r3 with
      | some m =>
        exact ⟨s3, _, _,
          by simp [postSteps, h, World.call, World.callErr, h1, h2, h3, failureOf],
          .addFailed body m⟩
      | none =>
        rcases h4 : d.SendEventDataBatch e.ProducerClient ctx batch s3 with ⟨r4, s4⟩
        cases r4 with
        | some m =>
          exact ⟨s4, _, _,
            by simp [postSteps, h, World.call, World.callErr, h1, h2, h3, h4, failureOf],
            .sendFailed body m⟩
        | none =>
          exact ⟨s4, _, _,
            by simp [postSteps, h, World.call, World.callErr, h1, h2, h3, h4, failureOf],
            .sent body⟩

/-- One run of `Post`: the calls of the body, then one `Close`, and the merged
result. On a suppressed event the body calls nothing and leaves `err` nil. -/
theorem Post_outcome (d : Deps σ κ π β χ) (e : AzureEventHub π) (ctx : κ) (event : Event)
    (w : World σ χ) :
    ∃ l err c,
      newCalls w (AzureEventHub.Post d e ctx event w).2 = l ++ [⟨.Close, c⟩] ∧
      (AzureEventHub.Post d e ctx event w).1 = mergeClose err c ∧
      (event.HasMetadata MetaCommitStatusKey MetaCommitStatusUpdateValue = true →
        l = [] ∧ err = none) ∧
      (event.HasMetadata MetaCommitStatusKey MetaCommitStatusUpdateValue = false →
        StepsOutcome l err) := by
  cases h : event.HasMetadata MetaCommitStatusKey MetaCommitStatusUpdateValue with
  | true =>
    refine ⟨[], none, (d.Close e.ProducerClient ctx w.st).1, ?_, ?_, by simp, by simp⟩
    · simp [AzureEventHub.Post, postDeferred, postSteps_suppressed d e ctx event w h,
        World.callErr, newCalls]
    · simp [AzureEventHub.Post, postDeferred, postSteps_suppressed d e ctx event w h,
        World.callErr, mergeClose]
  | false =>
    obtain ⟨st, l, err, hs, ho⟩ := postSteps_outcome d e ctx event w h
    refine ⟨l, err, (d.Close e.ProducerClient ctx st).1, ?_, ?_, by simp, fun _ => ho⟩
    · simp only [AzureEventHub.Post, postDeferred, hs, World.callErr]
      split <;> simp [newCalls]
    · simp only [AzureEventHub.Post, postDeferred, hs, World.callErr, mergeClose]
      split <;> rfl

/-- In a log whose entries all succeeded except possibly the last two, a failed
entry is followed by at most the last one. -/
theorem failed_then_only_last (init : List (Record χ)) (x cl : Record χ)
    (hinit : ∀ q ∈ init, q.failed = none) (hcl : cl.op = Op.Close) :
    ∀ before r after, init ++ [x, cl] = before ++ r :: after → r.failed ≠ none →
      ∀ q ∈ after, q.op = Op.Close := by
  induction init with
  | nil =>
    intro before r after hsplit _ q hq
    match before, hsplit with
    | [], hsplit =>
      simp at hsplit
      obtain ⟨-, rfl⟩ := hsplit
      simp at hq
      rw [hq]; exact hcl
    | [b], hsplit =>
      simp at hsplit
      obtain ⟨-, -, rfl⟩ := hsplit
      simp at hq
    | b :: b2 :: bs, hsplit =>
      simp at hsplit
  | cons p ps ih =>
    intro before r after hsplit hfail q hq
    match before, hsplit with
    | [], hsplit =>
      simp at hsplit
      obtain ⟨rfl, -⟩ := hsplit
      exact absurd (hinit _ (List.mem_cons_self _ _)) hfail
    | b :: bs, hsplit =>
      simp at hsplit
      exact ih (fun q hq => hinit q (List.mem_cons_of_mem _ hq)) bs r after
        (by simpa using hsplit.2) hfail q hq

end RunLemmas

section PostClaims
variable {σ κ π β χ : Type}

/-- C1: for every event and every behaviour of the dependencies, one call of
`Post` calls `Close` exactly once, and that `Close` is the last call `Post` makes. -/
theorem Post_closes_exactly_once_and_last (d : Deps σ κ π β χ) (e : AzureEventHub π) (ctx : κ)
    (event : Event) (w : World σ χ) :
    ((newCalls w (AzureEventHub.Post d e ctx event w).2).map Record.op).count Op.Close = 1 ∧
    ((newCalls w (AzureEventHub.Post d e ctx event w).2).map Record.op).getLast? =
      some Op.Close := by
  obtain ⟨l, err, c, hl, -, hsup, hrun⟩ := Post_outcome d e ctx event w
  rw [hl]
  cases h : event.HasMetadata MetaCommitStatusKey MetaCommitStatusUpdateValue with
  | true =>
    obtain ⟨rfl, -⟩ := hsup h
    simp [Record.op, Call.op]
  | false =>
    cases hrun h <;> simp [Record.op, Call.op]

/-- C4: `Post` returns nil if and only if every call it made succeeded, `Close`
included. -/
theorem Post_nil_iff_all_succeeded (d : Deps σ κ π β χ) (e : AzureEventHub π) (ctx : κ)
    (event : Event) (w : World σ χ) :
    (AzureEventHub.Post d e ctx event w).1 = none ↔
      ∀ r ∈ newCalls w (AzureEventHub.Post d e ctx event w).2, r.failed = none := by
  obtain ⟨l, err, c, hl, hr, hsup, hrun⟩ := Post_outcome d e ctx event w
  rw [hl, hr]
  cases h : event.HasMetadata MetaCommitStatusKey MetaCommitStatusUpdateValue with
  | true =>
    obtain ⟨rfl, rfl⟩ := hsup h
    cases c <;> simp [mergeClose]
  | false =>
    cases hrun h <;> cases c <;> simp [mergeClose, NewAggregate]

/-- C5: on an event marked as a commit-status update, `Post` does not marshal
and calls none of `NewEventDataBatch`, `AddEventData`, `SendEventDataBatch`; the
one call it makes is `Close`. -/
theorem Post_suppressed_only_closes (d : Deps σ κ π β χ) (e : AzureEventHub π) (ctx : κ)
    (event : Event) (w : World σ χ)
    (h : event.HasMetadata MetaCommitStatusKey MetaCommitStatusUpdateValue = true) :
    (newCalls w (AzureEventHub.Post d e ctx event w).2).map Record.op = [Op.Close] := by
  obtain ⟨l, err, c, hl, -, hsup, -⟩ := Post_outcome d e ctx event w
  obtain ⟨rfl, -⟩ := hsup h
  simp [hl, Record.op, Call.op]

/-- C8: on an event that is not suppressed, the calls of `Post` are an initial
part of marshal, NewEventDataBatch, AddEventData, SendEventDataBatch, of at
least one step, followed by `Close`; and a call that failed is followed by
nothing but `Close`. -/
theorem Post_steps_in_order_abort_on_failure (d : Deps σ κ π β χ) (e : AzureEventHub π)
    (ctx : κ) (event : Event) (w : World σ χ)
    (h : event.HasMetadata MetaCommitStatusKey MetaCommitStatusUpdateValue = false) :
    (∃ k, 1 ≤ k ∧
      (newCalls w (AzureEventHub.Post d e ctx event w).2).map Record.op =
        [Op.Marshal, Op.NewEventDataBatch, Op.AddEventData, Op.SendEventDataBatch].take k ++
          [Op.Close]) ∧
    ∀ before r after,
      newCalls w (AzureEventHub.Post d e ctx event w).2 = before ++ r :: after →
      r.failed ≠ none → ∀ q ∈ after, q.op = Op.Close := by
  obtain ⟨l, err, c, hl, -, -, hrun⟩ := Post_outcome d e ctx event w
  rw [hl]
  constructor
  · cases hrun h
    · exact ⟨1, by simp [Record.op, Call.op]⟩
    · exact ⟨2, by simp [Record.op, Call.op]⟩
    · exact ⟨3, by simp [Record.op, Call.op]⟩
    · exact ⟨4, by simp [Record.op, Call.op]⟩
    · exact ⟨4, by simp [Record.op, Call.op]⟩
  · cases hrun h
    · exact failed_then_only_last [] _ _ (by simp) rfl
    · exact failed_then_only_last [_] _ _ (by simp) rfl
    · exact failed_then_only_last [_, _] _ _ (by simp) rfl
    · exact failed_then_only_last [_, _, _] _ _ (by simp) rfl
    · exact failed_then_only_last [_, _, _] _ _ (by simp) rfl

end PostClaims

section MessageLemmas
variable {σ κ π β χ : Type}

/-- A string contains `m` when it is `a ++ m ++ b` for some `a` and `b`. -/
theorem contains_of_eq (s a m b : String) (h : s = (a ++ m) ++ b) :
    strings.Contains s m = true := by
  subst h
  simp only [strings.Contains, decide_eq_true_eq]
  exact ⟨a.data, b.data, by simp [String.data_append]⟩

/-- The message of the aggregate of a wrapped step error and a close error. -/
theorem aggregate_pair_Error (s c : String) (inner : GoError) :
    (GoError.aggregate [.wrapError s inner, .foreign c]).Error =
      if s = c then s else ("[" ++ ((s ++ ", ") ++ c)) ++ "]" := by
  by_cases h : s = c
  · subst h
    simp [GoError.Error, visitMsgs, aggregateStep]
  · have h2 : ¬ c = s := fun e => h e.symm
    simp [GoError.Error, visitMsgs, aggregateStep, h, h2]

/-- The aggregate of a wrapped step error and a close error prints both the
step message and the close message. -/
theorem aggregate_pair_contains (fmt m c : String) :
    strings.Contains
        (GoError.aggregate [Errorf_w fmt (.foreign m), .foreign c]).Error m = true ∧
    strings.Contains
        (GoError.aggregate [Errorf_w fmt (.foreign m), .foreign c]).Error c = true ∧
    strings.Contains
        (GoError.aggregate [Errorf_w fmt (.foreign m), .foreign c]).Error (fmt ++ m) = true := by
  rw [Errorf_w, aggregate_pair_Error]
  simp only [GoError.Error]
  by_cases h : fmt ++ m = c
  · rw [if_pos h]
    refine ⟨contains_of_eq _ fmt m "" (by simp), contains_of_eq _ "" c "" (by simp [h]),
      contains_of_eq _ "" (fmt ++ m) "" (by simp)⟩
  · rw [if_neg h]
    refine ⟨contains_of_eq _ ("[" ++ fmt) m (", " ++ c ++ "]") (by simp [String.append_assoc]),
      contains_of_eq _ ("[" ++ fmt ++ m ++ ", ") c "]" (by simp [String.append_assoc]),
      contains_of_eq _ "[" (fmt ++ m) (", " ++ c ++ "]") (by simp [String.append_assoc])⟩

end MessageLemmas

section PostMessages
variable {σ κ π β χ : Type}

/-- The body of `Post` never calls `Close`. -/
theorem StepsOutcome.no_close {l : List (Record χ)} {err : Option GoError}
    (h : StepsOutcome l err) : ∀ r ∈ l, r.op ≠ Op.Close := by
  cases h <;> simp [Record.op, Call.op]

/-- A failed step leaves in `err` its error wrapped with the text of its stage. -/
theorem StepsOutcome.failed_step {l : List (Record χ)} {err : Option GoError}
    (h : StepsOutcome l err) :
    ∀ r ∈ l, ∀ m, r.failed = some m → err = some (Errorf_w (stageFormat r.op) (.foreign m)) := by
  cases h <;> simp [Record.op, Call.op, stageFormat]

/-- C2: when a step of `Post` (marshal, NewEventDataBatch, AddEventData or
SendEventDataBatch) fails with message `m` and `Close` then fails with message
`c`, the error `Post` returns prints a string that contains both `m` and `c`. -/
theorem Post_error_contains_step_and_close_messages (d : Deps σ κ π β χ)
    (e : AzureEventHub π) (ctx : κ) (event : Event) (w : World σ χ)
    (r rc : Record χ) (m c : String)
    (hr : r ∈ newCalls w (AzureEventHub.Post d e ctx event w).2)
    (hrop : r.op ≠ Op.Close) (hrm : r.failed = some m)
    (hc : rc ∈ newCalls w (AzureEventHub.Post d e ctx event w).2)
    (hcop : rc.op = Op.Close) (hcm : rc.failed = some c) :
    ∃ err, (AzureEventHub.Post d e ctx event w).1 = some err ∧
      strings.Contains err.Error m = true ∧ strings.Contains err.Error c = true := by
  obtain ⟨l, err, c2, hl, hres, hsup, hrun⟩ := Post_outcome d e ctx event w
  rw [hl, List.mem_append, List.mem_singleton] at hr hc
  rw [hres]
  have hr2 : r ∈ l := by
    rcases hr with hr | rfl
    · exact hr
    · exact absurd rfl hrop
  cases h : event.HasMetadata MetaCommitStatusKey MetaCommitStatusUpdateValue with
  | true =>
    obtain ⟨rfl, -⟩ := hsup h
    simp at hr2
  | false =>
    have ho := hrun h
    have hc2 : c2 = some c := by
      rcases hc with hc | rfl
      · exact absurd hcop (ho.no_close rc hc)
      · exact hcm
    rw [ho.failed_step r hr2 m hrm, hc2]
    exact ⟨.aggregate [Errorf_w (stageFormat r.op) (.foreign m), .foreign c],
      by simp [mergeClose, NewAggregate],
      (aggregate_pair_contains _ m c).1, (aggregate_pair_contains _ m c).2.1⟩

end PostMessages

section Construction
variable {σ κ π β χ : Type}

/-- Every run of `NewAzureEventHub` is one of the seven of `NewOutcome`. -/
theorem NewAzureEventHub_outcome (d : Deps σ κ π β χ)
    (endpointURL token eventHubNamespace : String) (w : World σ χ) :
    ∃ st l res,
      NewAzureEventHub d endpointURL token eventHubNamespace w =
        (res, { st := st, log := w.log ++ l }) ∧
      NewOutcome endpointURL token eventHubNamespace l res := by
  by_cases ht : token = ""
  · cases hs : strings.Contains endpointURL "SharedAccessKey" with
    | true =>
      rcases h1 : d.NewProducerClientFromConnectionString endpointURL "" w.st with ⟨r1, s1⟩
      cases r1 with
      | error m =>
        exact ⟨s1, _, _, by simp [NewAzureEventHub, ht, hs, World.call, h1, failureOf],
          .sasFailed ht hs m⟩
      | ok producer =>
        exact ⟨s1, _, _, by simp [NewAzureEventHub, ht, hs, World.call, h1, failureOf],
          .sasCreated ht hs producer⟩
    | false =>
      rcases h1 : d.NewDefaultAzureCredential w.st with ⟨r1, s1⟩
      cases r1 with
      | error m =>
        exact ⟨s1, _, _, by simp [NewAzureEventHub, ht, hs, World.call, h1, failureOf],
          .credentialFailed ht hs m⟩
      | ok cred =>
        rcases h2 : d.NewProducerClient eventHubNamespace endpointURL (.defaultAzure cred) s1
          with ⟨r2, s2⟩
        cases r2 with
        | error m =>
          exact ⟨s2, _, _, by simp [NewAzureEventHub, ht, hs, World.call, h1, h2, failureOf],
            .defaultFailed ht hs cred m⟩
        | ok producer =>
          exact ⟨s2, _, _, by simp [NewAzureEventHub, ht, hs, World.call, h1, h2, failureOf],
            .defaultCreated ht hs cred producer⟩
  · rcases h1 : d.NewProducerClient eventHubNamespace endpointURL
      (.pureJWT (NewJWTProvider token)) w.st with ⟨r1, s1⟩
    cases r1 with
    | error m =>
      exact ⟨s1, _, _, by simp [NewAzureEventHub, ht, World.call, h1, failureOf],
        .jwtFailed ht m⟩
    | ok producer =>
      exact ⟨s1, _, _, by simp [NewAzureEventHub, ht, World.call, h1, failureOf],
        .jwtCreated ht producer⟩

/-- C6: `NewAzureEventHub` runs exactly one strategy, chosen by `token` and
`endpointURL` alone. With a non-empty token its one call builds the client
from the JWT provider, whatever the endpoint contains; with an empty token and
`SharedAccessKey` in the endpoint its one call builds the client from the
connection string; with an empty token and no `SharedAccessKey` it resolves
the default credential and, if that succeeds, builds the client from it. No
other constructor is called. -/
theorem NewAzureEventHub_selects_one_strategy (d : Deps σ κ π β χ)
    (endpointURL token eventHubNamespace : String) (w : World σ χ) :
    (token ≠ "" → ∃ res,
      newCalls w (NewAzureEventHub d endpointURL token eventHubNamespace w).2 =
        [⟨.NewProducerClient eventHubNamespace endpointURL (.pureJWT (NewJWTProvider token)),
          res⟩]) ∧
    (token = "" → strings.Contains endpointURL "SharedAccessKey" = true → ∃ res,
      newCalls w (NewAzureEventHub d endpointURL token eventHubNamespace w).2 =
        [⟨.NewProducerClientFromConnectionString endpointURL "", res⟩]) ∧
    (token = "" → strings.Contains endpointURL "SharedAccessKey" = false →
      (∃ msg, newCalls w (NewAzureEventHub d endpointURL token eventHubNamespace w).2 =
        [⟨.NewDefaultAzureCredential, some msg⟩]) ∨
      (∃ cred res, newCalls w (NewAzureEventHub d endpointURL token eventHubNamespace w).2 =
        [⟨.NewDefaultAzureCredential, none⟩,
          ⟨.NewProducerClient eventHubNamespace endpointURL (.defaultAzure cred), res⟩])) := by
  obtain ⟨st, l, res, hrun, ho⟩ := NewAzureEventHub_outcome d endpointURL token eventHubNamespace w
  rw [hrun, newCalls_append]
  refine ⟨fun ht => ?_, fun ht hs => ?_, fun ht hs => ?_⟩
  · cases ho with
    | jwtFailed _ msg => exact ⟨_, rfl⟩
    | jwtCreated _ p => exact ⟨_, rfl⟩
    | _ => contradiction
  · cases ho with
    | sasFailed _ _ msg => exact ⟨_, rfl⟩
    | sasCreated _ _ p => exact ⟨_, rfl⟩
    | jwtFailed h _ => exact absurd ht h
    | jwtCreated h _ => exact absurd ht h
    | credentialFailed _ h2 _ => rw [hs] at h2; contradiction
    | defaultFailed _ h2 _ _ => rw [hs] at h2; contradiction
    | defaultCreated _ h2 _ _ => rw [hs] at h2; contradiction
  · cases ho with
    | credentialFailed _ _ msg => exact Or.inl ⟨_, rfl⟩
    | defaultFailed _ _ cred msg => exact Or.inr ⟨_, _, rfl⟩
    | defaultCreated _ _ cred p => exact Or.inr ⟨_, _, rfl⟩
    | jwtFailed h _ => exact absurd ht h
    | jwtCreated h _ => exact absurd ht h
    | sasFailed _ h2 _ => rw [hs] at h2; contradiction
    | sasCreated _ h2 _ => rw [hs] at h2; contradiction

end Construction

section ConstructionMessages
variable {σ κ π β χ : Type}
set_option maxRecDepth 100000

/-- C7: with an empty token and an endpoint that contains `SharedAccessKey`, if
the connection-string constructor fails with message `m`, `NewAzureEventHub`
returns a nil client and an error whose message is exactly
"failed to create a eventhub using SAS " followed by `m`; for the endpoint of
the test and the message of the SDK about the missing EntityPath this is the
message the test expects. -/
theorem NewAzureEventHub_SAS_failure_message (d : Deps σ κ π β χ)
    (endpointURL eventHubNamespace m : String) (w : World σ χ) (s1 : σ)
    (hs : strings.Contains endpointURL "SharedAccessKey" = true)
    (hfail : d.NewProducerClientFromConnectionString endpointURL "" w.st = (.error m, s1)) :
    (NewAzureEventHub d endpointURL "" eventHubNamespace w).1.1 = none ∧
    (NewAzureEventHub d endpointURL "" eventHubNamespace w).1.2 =
      some (.errorString ("failed to create a eventhub using SAS " ++ m)) ∧
    (NewAzureEventHub d endpointURL "" eventHubNamespace w).1.2.map GoError.Error =
      some ("failed to create a eventhub using SAS " ++ m) ∧
    (m = "connection string does not contain an EntityPath. eventHub cannot be an empty string" →
      (NewAzureEventHub d endpointURL "" eventHubNamespace w).1.2.map GoError.Error =
        some "failed to create a eventhub using SAS connection string does not contain an EntityPath. eventHub cannot be an empty string") := by
  have hrun : (NewAzureEventHub d endpointURL "" eventHubNamespace w).1 =
      (none, some (.errorString ("failed to create a eventhub using SAS " ++ m))) := by
    simp [NewAzureEventHub, hs, World.call, hfail, Errorf_v, GoError.Error]
  rw [hrun]
  refine ⟨rfl, rfl, rfl, ?_⟩
  rintro rfl
  rfl

/-- C7 at the test case "SAS Authentication" without EntityPath: a nil client
and the error message the test expects. -/
theorem NewAzureEventHub_SAS_failure_message_witness :
    strings.Contains sasEndpointWithoutEntityPath "SharedAccessKey" = true ∧
    (NewAzureEventHub (stubDeps none none none none none none none)
      sasEndpointWithoutEntityPath "" "namespace" emptyWorld).1.1 = none ∧
    (NewAzureEventHub (stubDeps none none none none none none none)
      sasEndpointWithoutEntityPath "" "namespace" emptyWorld).1.2.map GoError.Error =
      some "failed to create a eventhub using SAS connection string does not contain an EntityPath. eventHub cannot be an empty string" :=
  have h := NewAzureEventHub_SAS_failure_message (stubDeps none none none none none none none)
    sasEndpointWithoutEntityPath "namespace"
    "connection string does not contain an EntityPath. eventHub cannot be an empty string"
    emptyWorld () (by decide) (by rfl)
  ⟨by decide, h.1, h.2.2.2 rfl⟩

/-- C10: for every jwt, context and options, `GetToken` of the provider built
by `NewJWTProvider jwt` returns a nil error and a token that is `jwt` with the
zero time as expiry; any other call on the same provider returns the same. -/
theorem GetToken_returns_the_jwt_without_expiry (jwt : String) (ctx : κ)
    (options : TokenRequestOptions) :
    ((NewJWTProvider jwt).GetToken ctx options).2 = none ∧
    ((NewJWTProvider jwt).GetToken ctx options).1.Token = jwt ∧
    ((NewJWTProvider jwt).GetToken ctx options).1.ExpiresOn = Time.zeroValue ∧
    ∀ (ctx2 : κ) (options2 : TokenRequestOptions),
      (NewJWTProvider jwt).GetToken ctx2 options2 = (NewJWTProvider jwt).GetToken ctx options :=
  ⟨rfl, rfl, rfl, fun _ _ => rfl⟩

end ConstructionMessages

section SingleFailure
variable {σ κ π β χ : Type}
set_option maxRecDepth 100000

/-- Putting a non-empty text in front of a message gives a different message. -/
theorem append_ne_self (context m : String) (h : context ≠ "") : context ++ m ≠ m := by
  intro heq
  have hlen := congrArg (fun s => s.data.length) heq
  simp only [String.data_append, List.length_append] at hlen
  have h0 : context.data = [] := List.length_eq_zero.mp (by omega)
  exact h (String.ext h0)

/-- The result of the deferred merge when a step failed: an aggregate that
prints the stage text followed by the step message, and the close message
when `Close` failed too. -/
theorem mergeClose_step (fmt m : String) (c2 : Option String) :
    ∃ err, mergeClose (some (Errorf_w fmt (.foreign m))) c2 = some err ∧
      strings.Contains err.Error (fmt ++ m) = true ∧
      strings.Contains err.Error m = true ∧
      ∀ c, c2 = some c → strings.Contains err.Error c = true := by
  cases c2 with
  | none =>
    refine ⟨.aggregate [Errorf_w fmt (.foreign m)], by simp [mergeClose, NewAggregate], ?_, ?_,
      by simp⟩
    · exact contains_of_eq _ "" (fmt ++ m) "" (by simp [GoError.Error, Errorf_w])
    · exact contains_of_eq _ fmt m "" (by simp [GoError.Error, Errorf_w])
  | some c =>
    refine ⟨.aggregate [Errorf_w fmt (.foreign m), .foreign c], by simp [mergeClose, NewAggregate],
      (aggregate_pair_contains fmt m c).2.2, (aggregate_pair_contains fmt m c).1, ?_⟩
    intro c3 hc3
    cases hc3
    exact (aggregate_pair_contains fmt m c).2.1

/-- C3, as the code has it: when no step failed `Post` returns the error of
`Close` itself (nil if `Close` succeeded); when a step left the error `E` and
`Close` succeeded `Post` returns the aggregate whose one member is `E`, which
prints the message of `E`. -/
theorem Post_single_failure (d : Deps σ κ π β χ) (e : AzureEventHub π) (ctx : κ)
    (event : Event) (w : World σ χ) :
    ((postSteps d e ctx event w).1 = none →
      (AzureEventHub.Post d e ctx event w).1 =
        (d.Close e.ProducerClient ctx (postSteps d e ctx event w).2.st).1.map GoError.foreign) ∧
    (∀ E, (postSteps d e ctx event w).1 = some E →
      (d.Close e.ProducerClient ctx (postSteps d e ctx event w).2.st).1 = none →
      (AzureEventHub.Post d e ctx event w).1 = some (.aggregate [E]) ∧
      (GoError.aggregate [E]).Error = E.Error) := by
  constructor
  · intro h
    simp [AzureEventHub.Post, postDeferred, h, World.callErr]
  · intro E h hc
    simp [AzureEventHub.Post, postDeferred, h, hc, World.callErr, NewAggregate, GoError.Error]

/-- C3 at two runs: a failed send followed by a successful close returns the
one-member aggregate; a failed close after a successful send returns the close
error itself. -/
theorem Post_single_failure_witness :
    (AzureEventHub.Post (stubDeps none none none none none (some "boom") none) stubHub ()
      plainEvent emptyWorld).1 =
      some (.aggregate [Errorf_w "failed to send msg: " (.foreign "boom")]) ∧
    (AzureEventHub.Post (stubDeps none none none none none none (some "close failed")) stubHub ()
      plainEvent emptyWorld).1 = some (.foreign "close failed") :=
  ⟨((Post_single_failure (stubDeps none none none none none (some "boom") none) stubHub ()
      plainEvent emptyWorld).2 _ rfl rfl).1,
    (Post_single_failure (stubDeps none none none none none none (some "close failed")) stubHub ()
      plainEvent emptyWorld).1 rfl⟩

/-- C3 as stated fails: send fails with "boom" and `Close` succeeds, so the
steps leave the wrapped send error and `Close` returns nil, yet `Post` does not
return that error but the aggregate that holds it. -/
theorem Post_step_error_alone_is_not_returned_itself :
    (postSteps (stubDeps none none none none none (some "boom") none) stubHub ()
      plainEvent emptyWorld).1 = some (Errorf_w "failed to send msg: " (.foreign "boom")) ∧
    ((stubDeps none none none none none (some "boom") none).Close stubHub.ProducerClient ()
      (postSteps (stubDeps none none none none none (some "boom") none) stubHub ()
        plainEvent emptyWorld).2.st).1 = none ∧
    (AzureEventHub.Post (stubDeps none none none none none (some "boom") none) stubHub ()
      plainEvent emptyWorld).1 =
      some (.aggregate [Errorf_w "failed to send msg: " (.foreign "boom")]) ∧
    (AzureEventHub.Post (stubDeps none none none none none (some "boom") none) stubHub ()
      plainEvent emptyWorld).1 ≠
    (postSteps (stubDeps none none none none none (some "boom") none) stubHub ()
      plainEvent emptyWorld).1 := by
  refine ⟨rfl, rfl, rfl, ?_⟩
  intro h
  have h2 : some (GoError.aggregate [Errorf_w "failed to send msg: " (.foreign "boom")]) =
      some (Errorf_w "failed to send msg: " (.foreign "boom")) := h
  simp [Errorf_w] at h2

end SingleFailure

section ConstructionFailures
variable {σ κ π β χ : Type}
set_option maxRecDepth 100000

/-- What `NewAzureEventHub` returns when one of its calls failed with message
`m`: no client, and either the credential error as it is or the client error
behind the construction text. -/
theorem NewOutcome.failed_call {endpointURL token eventHubNamespace : String}
    {l : List (Record χ)} {res : Option (AzureEventHub π) × Option GoError}
    (h : NewOutcome endpointURL token eventHubNamespace l res) :
    ∀ r ∈ l, ∀ m, r.failed = some m →
      ∃ err, res = (none, some err) ∧ strings.Contains err.Error m = true ∧
        (r.op = Op.NewDefaultAzureCredential → err = .foreign m) ∧
        (r.op ≠ Op.NewDefaultAzureCredential →
          ∃ label, err.Error = ("failed to create a eventhub using " ++ label) ++ m) := by
  intro r hr m hm
  cases h with
  | jwtFailed ht msg =>
    simp only [List.mem_singleton] at hr
    subst hr
    cases hm
    exact ⟨_, rfl, contains_of_eq _ "failed to create a eventhub using JWT " m ""
        (by simp [Errorf_v, GoError.Error]),
      by simp [Record.op, Call.op],
      fun _ => ⟨"JWT ", by simp [Errorf_v, GoError.Error, String.append_assoc]⟩⟩
  | sasFailed ht hs msg =>
    simp only [List.mem_singleton] at hr
    subst hr
    cases hm
    exact ⟨_, rfl, contains_of_eq _ "failed to create a eventhub using SAS " m ""
        (by simp [Errorf_v, GoError.Error]),
      by simp [Record.op, Call.op],
      fun _ => ⟨"SAS ", by simp [Errorf_v, GoError.Error, String.append_assoc]⟩⟩
  | credentialFailed ht hs msg =>
    simp only [List.mem_singleton] at hr
    subst hr
    cases hm
    exact ⟨_, rfl, contains_of_eq _ "" m "" (by simp [GoError.Error]), fun _ => rfl,
      by simp [Record.op, Call.op]⟩
  | defaultFailed ht hs cred msg =>
    simp only [List.mem_cons, List.mem_singleton, List.mem_nil_iff, or_false] at hr
    rcases hr with rfl | rfl
    · cases hm
    · cases hm
      exact ⟨_, rfl, contains_of_eq _ "failed to create a eventhub using SAS " m ""
          (by simp [Errorf_v, GoError.Error]),
        by simp [Record.op, Call.op],
        fun _ => ⟨"SAS ", by simp [Errorf_v, GoError.Error, String.append_assoc]⟩⟩
  | jwtCreated ht p =>
    simp only [List.mem_singleton] at hr
    subst hr
    cases hm
  | sasCreated ht hs p =>
    simp only [List.mem_singleton] at hr
    subst hr
    cases hm
  | defaultCreated ht hs cred p =>
    simp only [List.mem_cons, List.mem_singleton, List.mem_nil_iff, or_false] at hr
    rcases hr with rfl | rfl <;> cases hm

end ConstructionFailures

section Propagation
variable {σ κ π β χ : Type}
set_option maxRecDepth 100000

/-- If the body of `Post` leaves an error, it is the wrapped error of a step
that failed. -/
theorem StepsOutcome.some_failed {l : List (Record χ)} (E : GoError)
    (h : StepsOutcome l (some E)) :
    ∃ q ∈ l, ∃ m, q.failed = some m ∧ E = Errorf_w (stageFormat q.op) (.foreign m) := by
  cases h with
  | marshalFailed msg => exact ⟨_, List.mem_singleton.mpr rfl, msg, rfl, rfl⟩
  | batchFailed msg => exact ⟨⟨.NewEventDataBatch, some msg⟩, by simp, msg, rfl, rfl⟩
  | addFailed body msg => exact ⟨⟨.AddEventData body, some msg⟩, by simp, msg, rfl, rfl⟩
  | sendFailed body msg => exact ⟨⟨.SendEventDataBatch, some msg⟩, by simp, msg, rfl, rfl⟩

/-- C9, as the code has it. Construction: a failed call leaves no client; the
error of a client constructor comes back behind the text
"failed to create a eventhub using " and a label, the error of the default
credential comes back as it is. Post: the error of a failed step is printed
behind the text of its stage ("unable to marshall event: ",
"failed to create new event data batch: ", "failed to add event data: ",
"failed to send msg: "); the error of `Close` gets no text of its own and, when
no step failed, is returned as it is. In every case the message of the
dependency is contained in the message of the returned error. -/
theorem dependency_errors_reach_the_caller :
    (∀ (d : Deps σ κ π β χ) (endpointURL token eventHubNamespace : String) (w : World σ χ)
      (r : Record χ) (m : String),
      r ∈ newCalls w (NewAzureEventHub d endpointURL token eventHubNamespace w).2 →
      r.failed = some m →
      ∃ err, (NewAzureEventHub d endpointURL token eventHubNamespace w).1 = (none, some err) ∧
        strings.Contains err.Error m = true ∧
        (r.op = Op.NewDefaultAzureCredential → err = .foreign m) ∧
        (r.op ≠ Op.NewDefaultAzureCredential →
          ∃ label, err.Error = ("failed to create a eventhub using " ++ label) ++ m)) ∧
    (∀ (d : Deps σ κ π β χ) (e : AzureEventHub π) (ctx : κ) (event : Event) (w : World σ χ)
      (r : Record χ) (m : String),
      r ∈ newCalls w (AzureEventHub.Post d e ctx event w).2 →
      r.failed = some m →
      ∃ err, (AzureEventHub.Post d e ctx event w).1 = some err ∧
        strings.Contains err.Error m = true ∧
        (r.op = Op.Marshal →
          strings.Contains err.Error ("unable to marshall event: " ++ m) = true) ∧
        (r.op = Op.NewEventDataBatch →
          strings.Contains err.Error ("failed to create new event data batch: " ++ m) = true) ∧
        (r.op = Op.AddEventData →
          strings.Contains err.Error ("failed to add event data: " ++ m) = true) ∧
        (r.op = Op.SendEventDataBatch →
          strings.Contains err.Error ("failed to send msg: " ++ m) = true) ∧
        (r.op = Op.Close →
          (∀ q ∈ newCalls w (AzureEventHub.Post d e ctx event w).2,
            q.op ≠ Op.Close → q.failed = none) →
          err = .foreign m)) := by
  constructor
  · intro d endpointURL token eventHubNamespace w r m hr hm
    obtain ⟨st, l, res, hrun, ho⟩ :=
      NewAzureEventHub_outcome d endpointURL token eventHubNamespace w
    rw [hrun, newCalls_append] at hr
    rw [hrun]
    exact ho.failed_call r hr m hm
  · intro d e ctx event w r m hr hm
    obtain ⟨l, err, c2, hl, hres, hsup, hrun⟩ := Post_outcome d e ctx event w
    rw [hl]
    rw [hl, List.mem_append, List.mem_singleton] at hr
    rw [hres]
    have hl0 : event.HasMetadata MetaCommitStatusKey MetaCommitStatusUpdateValue = true →
        l = [] ∧ err = none := hsup
    rcases hr with hr | rfl
    · cases h : event.HasMetadata MetaCommitStatusKey MetaCommitStatusUpdateValue with
      | true =>
        obtain ⟨rfl, -⟩ := hl0 h
        simp at hr
      | false =>
        have ho := hrun h
        obtain ⟨err2, he, hfm, hcm, -⟩ := mergeClose_step (stageFormat r.op) m c2
        rw [ho.failed_step r hr m hm]
        refine ⟨err2, he, hcm, ?_, ?_, ?_, ?_, fun hop => absurd hop (ho.no_close r hr)⟩ <;>
          · intro hop
            rw [hop] at hfm
            exact hfm
    · cases hm
      cases h : event.HasMetadata MetaCommitStatusKey MetaCommitStatusUpdateValue with
      | true =>
        obtain ⟨-, rfl⟩ := hl0 h
        exact ⟨.foreign m, by simp [mergeClose],
          contains_of_eq _ "" m "" (by simp [GoError.Error]),
          by simp [Record.op, Call.op], by simp [Record.op, Call.op],
          by simp [Record.op, Call.op], by simp [Record.op, Call.op], fun _ _ => rfl⟩
      | false =>
        have ho := hrun h
        cases err with
        | none =>
          exact ⟨.foreign m, by simp [mergeClose],
            contains_of_eq _ "" m "" (by simp [GoError.Error]),
            by simp [Record.op, Call.op], by simp [Record.op, Call.op],
            by simp [Record.op, Call.op], by simp [Record.op, Call.op], fun _ _ => rfl⟩
        | some E =>
          obtain ⟨q, hq, m2, hqm, hE⟩ := ho.some_failed E
          obtain ⟨err2, he, -, -, hc⟩ := mergeClose_step (stageFormat q.op) m2 (some m)
          rw [hE]
          refine ⟨err2, he, hc m rfl, by simp [Record.op, Call.op], by simp [Record.op, Call.op],
            by simp [Record.op, Call.op], by simp [Record.op, Call.op], fun _ hall => ?_⟩
          have hqn := hall q (List.mem_append_left _ hq) (ho.no_close q hq)
          rw [hqm] at hqn
          cases hqn

end Propagation

section Runs
set_option maxRecDepth 100000

/-- C9 at two runs: a failed send followed by a failed close, and a failed
JWT client construction. -/
theorem dependency_errors_reach_the_caller_witness :
    (∃ err, (AzureEventHub.Post
        (stubDeps none none none none none (some "boom") (some "close failed")) stubHub ()
        plainEvent emptyWorld).1 = some err ∧
      strings.Contains err.Error "failed to send msg: boom" = true) ∧
    (∃ err, (NewAzureEventHub (stubDeps none (some "bad namespace") none none none none none)
        "https://example.com" "jwt-token" "namespace" emptyWorld).1 = (none, some err) ∧
      ∃ label, err.Error = ("failed to create a eventhub using " ++ label) ++ "bad namespace") :=
  ⟨(match (dependency_errors_reach_the_caller).2
        (stubDeps none none none none none (some "boom") (some "close failed")) stubHub ()
        plainEvent emptyWorld ⟨.SendEventDataBatch, some "boom"⟩ "boom" (by decide) rfl with
      | ⟨err, h1, _, _, _, _, h6, _⟩ => ⟨err, h1, h6 rfl⟩),
    (match (dependency_errors_reach_the_caller).1
        (stubDeps none (some "bad namespace") none none none none none)
        "https://example.com" "jwt-token" "namespace" emptyWorld
        ⟨.NewProducerClient "namespace" "https://example.com" (.pureJWT (NewJWTProvider "jwt-token")),
          some "bad namespace"⟩ "bad namespace" (by decide) rfl with
      | ⟨err, h1, _, _, h4⟩ => ⟨err, h1, h4 (by decide)⟩)⟩

/-- C9 as stated fails at `Close` and at credential resolution. When only
`Close` fails, with "close failed", `Post` returns that very error: its message
is "close failed" and no text stands in front of it. When
`NewDefaultAzureCredential` fails, with "no credential", `NewAzureEventHub`
returns that very error. -/
theorem close_and_credential_errors_have_no_stage_context :
    (newCalls emptyWorld (AzureEventHub.Post
        (stubDeps none none none none none none (some "close failed")) stubHub ()
        plainEvent emptyWorld).2).map (fun r => (r.op, r.failed)) =
      [(Op.Marshal, none), (Op.NewEventDataBatch, none), (Op.AddEventData, none),
        (Op.SendEventDataBatch, none), (Op.Close, some "close failed")] ∧
    (AzureEventHub.Post (stubDeps none none none none none none (some "close failed")) stubHub ()
      plainEvent emptyWorld).1 = some (.foreign "close failed") ∧
    (GoError.foreign "close failed").Error = "close failed" ∧
    (¬ ∃ context, context ≠ "" ∧
      (GoError.foreign "close failed").Error = context ++ "close failed") ∧
    (newCalls emptyWorld (NewAzureEventHub
        (stubDeps (some "no credential") none none none none none none)
        "https://example.com" "" "namespace" emptyWorld).2).map (fun r => (r.op, r.failed)) =
      [(Op.NewDefaultAzureCredential, some "no credential")] ∧
    (NewAzureEventHub (stubDeps (some "no credential") none none none none none none)
      "https://example.com" "" "namespace" emptyWorld).1 =
      (none, some (.foreign "no credential")) ∧
    (¬ ∃ context, context ≠ "" ∧
      (GoError.foreign "no credential").Error = context ++ "no credential") := by
  refine ⟨by decide, rfl, rfl, ?_, by decide, rfl, ?_⟩
  · rintro ⟨context, hne, heq⟩
    exact append_ne_self context "close failed" hne heq.symm
  · rintro ⟨context, hne, heq⟩
    exact append_ne_self context "no credential" hne heq.symm

/-- C2 at a run where send fails with "boom" and close with "close failed":
the returned error prints both. -/
theorem Post_error_contains_step_and_close_messages_witness :
    ∃ err, (AzureEventHub.Post
        (stubDeps none none none none none (some "boom") (some "close failed")) stubHub ()
        plainEvent emptyWorld).1 = some err ∧
      strings.Contains err.Error "boom" = true ∧
      strings.Contains err.Error "close failed" = true :=
  Post_error_contains_step_and_close_messages
    (stubDeps none none none none none (some "boom") (some "close failed")) stubHub ()
    plainEvent emptyWorld ⟨.SendEventDataBatch, some "boom"⟩ ⟨.Close, some "close failed"⟩
    "boom" "close failed" (by decide) (by decide) rfl (by decide) rfl rfl

/-- C5 at the commit-status event: the one call is `Close`. -/
theorem Post_suppressed_only_closes_witness :
    commitStatusEvent.HasMetadata MetaCommitStatusKey MetaCommitStatusUpdateValue = true ∧
    (newCalls emptyWorld (AzureEventHub.Post (stubDeps none none none none none none none)
      stubHub () commitStatusEvent emptyWorld).2).map Record.op = [Op.Close] :=
  ⟨by decide, Post_suppressed_only_closes (stubDeps none none none none none none none)
    stubHub () commitStatusEvent emptyWorld (by decide)⟩

/-- C8 at a run where `AddEventData` fails: the event is not suppressed, and
the calls are marshal, batch and add in this order, then `Close`; send is not
called. -/
theorem Post_steps_in_order_abort_on_failure_witness :
    plainEvent.HasMetadata MetaCommitStatusKey MetaCommitStatusUpdateValue = false ∧
    (newCalls emptyWorld (AzureEventHub.Post
        (stubDeps none none none none (some "too large") none none) stubHub ()
        plainEvent emptyWorld).2).map Record.op =
      [Op.Marshal, Op.NewEventDataBatch, Op.AddEventData, Op.Close] ∧
    ((∃ k, 1 ≤ k ∧
      (newCalls emptyWorld (AzureEventHub.Post
          (stubDeps none none none none (some "too large") none none) stubHub ()
          plainEvent emptyWorld).2).map Record.op =
        [Op.Marshal, Op.NewEventDataBatch, Op.AddEventData, Op.SendEventDataBatch].take k ++
          [Op.Close]) ∧
    ∀ before r after,
      newCalls emptyWorld (AzureEventHub.Post
          (stubDeps none none none none (some "too large") none none) stubHub ()
          plainEvent emptyWorld).2 = before ++ r :: after →
      r.failed ≠ none → ∀ q ∈ after, q.op = Op.Close) :=
  ⟨by decide, by decide,
    Post_steps_in_order_abort_on_failure
      (stubDeps none none none none (some "too large") none none) stubHub ()
      plainEvent emptyWorld (by decide)⟩

/-- C6 at the endpoints of the test file: a token selects the JWT provider even
with `SharedAccessKey` in the endpoint, the SAS endpoint the connection string,
the plain endpoint the default credential. -/
theorem NewAzureEventHub_selects_one_strategy_witness :
    (∃ res, newCalls emptyWorld (NewAzureEventHub (stubDeps none none none none none none none)
        sasEndpoint "jwt-token" "namespace" emptyWorld).2 =
      [⟨.NewProducerClient "namespace" sasEndpoint (.pureJWT (NewJWTProvider "jwt-token")),
        res⟩]) ∧
    (∃ res, newCalls emptyWorld (NewAzureEventHub (stubDeps none none none none none none none)
        sasEndpoint "" "namespace" emptyWorld).2 =
      [⟨.NewProducerClientFromConnectionString sasEndpoint "", res⟩]) ∧
    ((∃ msg, newCalls emptyWorld (NewAzureEventHub (stubDeps none none none none none none none)
        "https://example.com" "" "namespace" emptyWorld).2 =
        [⟨.NewDefaultAzureCredential, some msg⟩]) ∨
      (∃ cred res, newCalls emptyWorld
        (NewAzureEventHub (stubDeps none none none none none none none)
          "https://example.com" "" "namespace" emptyWorld).2 =
        [⟨.NewDefaultAzureCredential, none⟩,
          ⟨.NewProducerClient "namespace" "https://example.com" (.defaultAzure cred), res⟩])) :=
  ⟨(NewAzureEventHub_selects_one_strategy (stubDeps none none none none none none none)
      sasEndpoint "jwt-token" "namespace" emptyWorld).1 (by decide),
    (NewAzureEventHub_selects_one_strategy (stubDeps none none none none none none none)
      sasEndpoint "" "namespace" emptyWorld).2.1 rfl (by decide),
    (NewAzureEventHub_selects_one_strategy (stubDeps none none none none none none none)
      "https://example.com" "" "namespace" emptyWorld).2.2 rfl (by decide)⟩

end Runs

end Notifier
